import Mathlib

/-!
Verification of the proposal-evaluation gateway of the neargov/dashboard
repository (`src/pages/api/discourse/latest.ts`, evaluateDraft endpoint).

The TypeScript source is shallowly embedded: module-level constants become
Lean constants, the in-memory rate-limit `Map` becomes a function
`String → Option RateLimitRecord` threaded explicitly through each call,
`Date.now()` becomes an explicit `now : Nat` argument (milliseconds; the
handler is modelled as instantaneous, so its two `Date.now()` reads see the
same value), and the three external async collaborators of the handler
(NEAR auth verification, input sanitization, the AI evaluation service)
become oracle fields of the request record, since their code lives in
`@/lib/server/screening`, which is outside this repository snapshot.
JavaScript truthiness tests that the source relies on (`if (authHeader)`,
`resetTime ? _ : _`, `remoteAddress || "unknown"`) are translated
explicitly, including their behaviour on the empty string and on zero.
-/

/-- Window length in milliseconds: `RATE_LIMIT_WINDOW = 15 * 60 * 1000`. -/
def RATE_LIMIT_WINDOW : Nat := 15 * 60 * 1000

/-- Cap per window: `RATE_LIMIT_MAX_REQUESTS = 5`. -/
def RATE_LIMIT_MAX_REQUESTS : Nat := 5

/-- One entry of `rateLimitMap`: `{ count: number; resetTime: number }`. -/
structure RateLimitRecord where
  count : Nat
  resetTime : Nat
deriving DecidableEq, Repr

/-- The in-memory `rateLimitMap : Map<string, RateLimitRecord>`, embedded as
a function from keys to optional records. -/
def RLMap : Type := String → Option RateLimitRecord

/-- `rateLimitMap.set(key, v)`. -/
def RLMap.set (m : RLMap) (k : String) (v : RateLimitRecord) : RLMap :=
  fun q => if q = k then some v else m q

/-- Result shape of `checkRateLimit`:
`{ allowed: boolean; remaining: number; resetTime?: number }`. -/
structure RateLimitResult where
  allowed : Bool
  remaining : Nat
  resetTime : Option Nat
deriving DecidableEq, Repr

/-- Embedding of `checkRateLimit(key)` from latest.ts lines 143-175.  The
mutation of the module-level map is made explicit: the function takes the
current map and returns the result together with the new map.  `Date.now()`
is the explicit argument `now`. -/
def checkRateLimit (now : Nat) (key : String) (m : RLMap) :
    RateLimitResult × RLMap :=
  match m key with
  | none =>
      (⟨true, RATE_LIMIT_MAX_REQUESTS - 1, none⟩,
       m.set key ⟨1, now + RATE_LIMIT_WINDOW⟩)
  | some record =>
      if now > record.resetTime then
        (⟨true, RATE_LIMIT_MAX_REQUESTS - 1, none⟩,
         m.set key ⟨1, now + RATE_LIMIT_WINDOW⟩)
      else if record.count ≥ RATE_LIMIT_MAX_REQUESTS then
        (⟨false, 0, some record.resetTime⟩, m)
      else
        (⟨true, RATE_LIMIT_MAX_REQUESTS - (record.count + 1), none⟩,
         m.set key ⟨record.count + 1, record.resetTime⟩)

/-- The empty rate-limit map (fresh module state). -/
def emptyRL : RLMap := fun _ => none

/-- A sequence of checkRateLimit calls against the same key, threading the
map through; returns the list of results and the final map. -/
def runChecks : List Nat → String → RLMap → List RateLimitResult × RLMap
  | [], _, m => ([], m)
  | t :: ts, key, m =>
      let step := checkRateLimit t key m
      let rest := runChecks ts key step.2
      (step.1 :: rest.1, rest.2)

/-- A Node HTTP header value: `string | string[]` (absent is `Option.none`
at the use site). -/
inductive HeaderValue
  | str (s : String)
  | strs (l : List String)
deriving DecidableEq, Repr

/-- Ordinal score of an attention criterion: "high" | "medium" | "low". -/
inductive OrdScore
  | high
  | medium
  | low
deriving DecidableEq, Repr

/-- One boolean quality criterion: `{pass: boolean, reason: string}`. -/
structure CriterionVerdict where
  pass : Bool
  reason : String
deriving DecidableEq, Repr

/-- One ordinal attention criterion: `{score: enum, reason: string}`. -/
structure AttentionVerdict where
  score : OrdScore
  reason : String
deriving DecidableEq, Repr

/-- The Evaluation structure (types/evaluation, as given by the prompt
schema in summarizeDiscussion.ts and spec section 3): six boolean quality
criteria, two ordinal attention criteria, the two aggregate scores, the
overall verdict and a summary.  Scores are rationals in [0,1]. -/
structure Evaluation where
  complete : CriterionVerdict
  legible : CriterionVerdict
  consistent : CriterionVerdict
  compliant : CriterionVerdict
  justified : CriterionVerdict
  measurable : CriterionVerdict
  relevant : AttentionVerdict
  material : AttentionVerdict
  qualityScore : ℚ
  attentionScore : ℚ
  overallPass : Bool
  summary : String
deriving DecidableEq, Repr

/-- Pass/fail converted to 1/0. -/
def b2q (b : Bool) : ℚ := if b then 1 else 0

/-- High/medium/low converted to 1 / 0.5 / 0. -/
def ord2q : OrdScore → ℚ
  | .high => 1
  | .medium => 1 / 2
  | .low => 0

/-- Modelled from the spec: the aggregate-recomputation step of
`requestEvaluation` (in `@/lib/server/screening`, which is not under src;
only its caller is).  Per spec sections 3 and 4.4, the service response is
never trusted for its self-reported aggregates: `qualityScore` is recomputed
as the mean of the six boolean quality criteria (pass=1, fail=0),
`attentionScore` as the mean of the two ordinal attention criteria
(high=1, medium=0.5, low=0), and `overallPass` as the conjunction of the
six quality criteria. -/
def normalizeEvaluation (raw : Evaluation) : Evaluation :=
  { raw with
    qualityScore :=
      (b2q raw.complete.pass + b2q raw.legible.pass +
       b2q raw.consistent.pass + b2q raw.compliant.pass +
       b2q raw.justified.pass + b2q raw.measurable.pass) / 6
    attentionScore :=
      (ord2q raw.relevant.score + ord2q raw.material.score) / 2
    overallPass :=
      raw.complete.pass && raw.legible.pass && raw.consistent.pass &&
      raw.compliant.pass && raw.justified.pass && raw.measurable.pass }

/-- Typed screening failure: either an input-validation failure or an
upstream evaluation failure. -/
inductive ScreeningError
  | validation (msg : String)
  | upstream (msg : String)
deriving DecidableEq, Repr

/-- Modelled from the spec: the status code chosen by
`respondWithScreeningError` (in `@/lib/server/screening`, not under src).
Spec sections 6 and 7: a validation failure maps to HTTP 400, an upstream
evaluation failure to a generic HTTP 502/500. -/
def screeningErrorStatus : ScreeningError → Nat
  | .validation _ => 400
  | .upstream _ => 502

/-- An incoming request to the evaluateDraft handler.  Header and socket
fields mirror `req.headers` / `req.socket.remoteAddress`; the three
`Except` fields are oracles giving the outcome each external collaborator
would produce for this request (`verifyNearAuth` can throw, modelled as
`Except.error ()`; `sanitizeProposalInput` and `requestEvaluation` can
throw a screening error).  `now` is the value of `Date.now()` during the
handling of this request. -/
structure Request where
  method : String
  authHeader : Option String
  xForwardedFor : Option HeaderValue
  xRealIp : Option HeaderValue
  socketAddr : Option String
  authResult : Except Unit String
  sanitizeResult : Except ScreeningError (String × String)
  evalResult : Except ScreeningError Evaluation
  now : Nat

/-- Embedding of `getClientIdentifier(req)` from latest.ts lines 187-199.
`typeof x === "string"` is the `HeaderValue.str` match;
`req.socket.remoteAddress || "unknown"` maps the absent and the empty
(falsy) address to "unknown". -/
def getClientIdentifier (req : Request) : String :=
  match req.xForwardedFor with
  | some (HeaderValue.str s) => ((s.splitOn ",").headD "").trim
  | _ =>
      match req.xRealIp with
      | some (HeaderValue.str s) => s
      | _ =>
          match req.socketAddr with
          | some a => if a = "" then "unknown" else a
          | none => "unknown"

/-- The derivation of the client identity exactly as claim C9 words it: the
first comma-separated entry of x-forwarded-for (trimmed) when that header
is a string; otherwise x-real-ip when it is a string; otherwise the raw
socket address; otherwise the sentinel "unknown". -/
def clientIdentitySpec (req : Request) : String :=
  match req.xForwardedFor with
  | some (HeaderValue.str s) => ((s.splitOn ",").headD "").trim
  | _ =>
      match req.xRealIp with
      | some (HeaderValue.str s) => s
      | _ => req.socketAddr.getD "unknown"

/-- JSON body of a response from the handler. -/
inductive RespBody
  | errorJson (error : String)
  | rateLimited (error : String) (message : String) (retryAfter : Nat)
  | screening (e : ScreeningError)
  | ok (evaluation : Evaluation) (authenticatedAs : Option String)
deriving DecidableEq, Repr

/-- A finished HTTP response: status code, headers accumulated through
`res.setHeader`, and the JSON body. -/
structure Response where
  status : Nat
  headers : List (String × String)
  body : RespBody
deriving DecidableEq, Repr

/-- The interpolated message of the 429 body; `Math.ceil(retryAfter / 60)`
is the exact integer ceiling since retryAfter is an integer. -/
def rateLimitMessage (retryAfter : Nat) : String :=
  let mins := (retryAfter + 59) / 60
  s!"You\x27ve reached the limit of {RATE_LIMIT_MAX_REQUESTS} free evaluations. Please try again in {mins} minutes or connect your NEAR wallet for unlimited evaluations."

/-- The tail of the handler after the method/auth/rate-limit gates
(latest.ts lines 252-291): sanitize, then request the evaluation, mapping
each failure through `respondWithScreeningError` and on success returning
HTTP 200 with the normalized Evaluation and the authenticated account. -/
def proceedAfterRateLimit (req : Request) (m : RLMap)
    (hdrs : List (String × String)) (accountId : Option String) :
    Response × RLMap :=
  match req.sanitizeResult with
  | .error e => (⟨screeningErrorStatus e, hdrs, .screening e⟩, m)
  | .ok _ =>
      match req.evalResult with
      | .error e => (⟨screeningErrorStatus e, hdrs, .screening e⟩, m)
      | .ok raw =>
          (⟨200, hdrs, .ok (normalizeEvaluation raw) accountId⟩, m)

/-- Embedding of the evaluateDraft handler (latest.ts lines 201-291).
Non-POST methods get 405.  `if (authHeader)` is a truthiness test, so a
present-but-empty authorization header skips verification; a verification
failure is caught and degrades to anonymous.  Anonymous requests go through
the rate limiter, always receive the X-RateLimit headers, and when denied
get a 429 whose retryAfter is `Math.ceil((resetTime - now) / 1000)` with
the `resetTime ? _ : _` falsy fallback translated explicitly. -/
def handler (req : Request) (m : RLMap) : Response × RLMap :=
  if req.method ≠ "POST" then
    (⟨405, [], .errorJson "Method not allowed"⟩, m)
  else
    let auth : Bool × Option String :=
      match req.authHeader with
      | none => (false, none)
      | some h =>
          if h = "" then (false, none)
          else
            match req.authResult with
            | .ok aid => (true, some aid)
            | .error _ => (false, none)
    if auth.1 then
      proceedAfterRateLimit req m [] auth.2
    else
      let clientId := getClientIdentifier req
      let checked := checkRateLimit req.now clientId m
      let hdrs :=
        [("X-RateLimit-Remaining", toString checked.1.remaining),
         ("X-RateLimit-Limit", toString RATE_LIMIT_MAX_REQUESTS)]
      if checked.1.allowed then
        proceedAfterRateLimit req checked.2 hdrs auth.2
      else
        let retryAfter :=
          match checked.1.resetTime with
          | some rt =>
              if rt = 0 then RATE_LIMIT_WINDOW / 1000
              else (rt - req.now + 999) / 1000
          | none => RATE_LIMIT_WINDOW / 1000
        (⟨429, hdrs ++ [("Retry-After", toString retryAfter)],
          .rateLimited "Rate limit exceeded" (rateLimitMessage retryAfter)
            retryAfter⟩, checked.2)

/-- A request is handled as anonymous when no authorization header is
present, the header is empty (falsy), or verification throws. -/
def anonymousReq (req : Request) : Prop :=
  req.authHeader = none ∨ req.authHeader = some "" ∨
    req.authResult = Except.error ()

/-- A sample raw evaluator response whose self-reported aggregates are
deliberately wrong: one criterion fails, yet it claims qualityScore 7 and
overallPass true. -/
def sampleRaw : Evaluation :=
  { complete := ⟨true, "a"⟩
    legible := ⟨true, "b"⟩
    consistent := ⟨false, "c"⟩
    compliant := ⟨true, "d"⟩
    justified := ⟨true, "e"⟩
    measurable := ⟨true, "f"⟩
    relevant := ⟨.high, "g"⟩
    material := ⟨.low, "h"⟩
    qualityScore := 7
    attentionScore := 9
    overallPass := true
    summary := "s" }

/-- A sample anonymous POST request whose collaborators all succeed. -/
def sampleAnonReq : Request :=
  { method := "POST"
    authHeader := none
    xForwardedFor := none
    xRealIp := none
    socketAddr := some "1.2.3.4"
    authResult := Except.error ()
    sanitizeResult := Except.ok ("T", "C")
    evalResult := Except.ok sampleRaw
    now := 0 }

/-- A sample POST request carrying a credential that verifies to the
account "alice.near". -/
def sampleAuthReq : Request :=
  { sampleAnonReq with
    authHeader := some "Bearer x"
    authResult := Except.ok "alice.near" }

/-- Overwriting the same key twice keeps only the second record, exactly as
for the JavaScript Map. -/
theorem RLMap.set_set (m : RLMap) (k : String) (a b : RateLimitRecord) :
    (m.set k a).set k b = m.set k b := by
  funext q
  by_cases h : q = k <;> simp [RLMap.set, h]

/-- Claim C2: for every key and call to checkRateLimit: if no record exists
or now is past the resetTime of the existing record, a fresh record with
count 1 and resetTime now+W is stored and the call allows with remaining
N-1 = 4; otherwise if count is at least N the call denies with remaining 0
and the existing resetTime, leaving the map as is; otherwise the count is
incremented and the call allows with remaining N-count (post-increment),
with W fifteen minutes and N five. -/
theorem checkRateLimit_cases (now : Nat) (key : String) (m : RLMap) :
    ((m key = none ∨ ∃ rec, m key = some rec ∧ now > rec.resetTime) →
      checkRateLimit now key m =
        (⟨true, 4, none⟩, m.set key ⟨1, now + RATE_LIMIT_WINDOW⟩)) ∧
    (∀ rec, m key = some rec → now ≤ rec.resetTime →
      rec.count ≥ 5 →
      checkRateLimit now key m = (⟨false, 0, some rec.resetTime⟩, m)) ∧
    (∀ rec, m key = some rec → now ≤ rec.resetTime →
      rec.count < 5 →
      checkRateLimit now key m =
        (⟨true, 5 - (rec.count + 1), none⟩,
         m.set key ⟨rec.count + 1, rec.resetTime⟩)) := by
  refine ⟨?_, ?_, ?_⟩
  · rintro (h | ⟨rec, hrec, hnow⟩)
    · simp [checkRateLimit, h, RATE_LIMIT_MAX_REQUESTS]
    · simp [checkRateLimit, hrec, hnow, RATE_LIMIT_MAX_REQUESTS]
  · intro rec hrec hnow hcount
    have h1 : ¬ now > rec.resetTime := by omega
    have h2 : rec.count ≥ RATE_LIMIT_MAX_REQUESTS := by
      simpa [RATE_LIMIT_MAX_REQUESTS] using hcount
    simp [checkRateLimit, hrec, h1, h2]
  · intro rec hrec hnow hcount
    have h1 : ¬ now > rec.resetTime := by omega
    simp only [checkRateLimit, hrec, h1, if_false, ite_false, if_neg h1,
      RATE_LIMIT_MAX_REQUESTS]
    rw [if_neg (by omega : ¬ rec.count ≥ 5)]

/-- Witness for C2: the fresh-key branch evaluated at a concrete input. -/
theorem checkRateLimit_cases_witness :
    checkRateLimit 0 "k" emptyRL =
      (⟨true, 4, none⟩, emptyRL.set "k" ⟨1, 0 + RATE_LIMIT_WINDOW⟩) :=
  (checkRateLimit_cases 0 "k" emptyRL).1 (Or.inl rfl)

/-- Claim C3: for a client with no existing record, six consecutive calls
all at or before the resetTime armed by the first call yield: five allowed
results with remaining 4, 3, 2, 1, 0 in strictly decreasing order, then a
denial (which also reports the armed resetTime). -/
theorem rateLimit_first_six_calls (t1 t2 t3 t4 t5 t6 : Nat) (key : String)
    (m : RLMap) (h0 : m key = none)
    (h2 : t2 ≤ t1 + RATE_LIMIT_WINDOW) (h3 : t3 ≤ t1 + RATE_LIMIT_WINDOW)
    (h4 : t4 ≤ t1 + RATE_LIMIT_WINDOW) (h5 : t5 ≤ t1 + RATE_LIMIT_WINDOW)
    (h6 : t6 ≤ t1 + RATE_LIMIT_WINDOW) :
    (runChecks [t1, t2, t3, t4, t5, t6] key m).1 =
      [⟨true, 4, none⟩, ⟨true, 3, none⟩, ⟨true, 2, none⟩,
       ⟨true, 1, none⟩, ⟨true, 0, none⟩,
       ⟨false, 0, some (t1 + RATE_LIMIT_WINDOW)⟩] := by
  have hW : ∀ c : Nat,
      (m.set key ⟨c, t1 + RATE_LIMIT_WINDOW⟩) key =
        some ⟨c, t1 + RATE_LIMIT_WINDOW⟩ := fun c => by simp [RLMap.set]
  have s1 : checkRateLimit t1 key m =
      (⟨true, 4, none⟩, m.set key ⟨1, t1 + RATE_LIMIT_WINDOW⟩) := by
    simp [checkRateLimit, h0, RATE_LIMIT_MAX_REQUESTS]
  have step : ∀ t c, t ≤ t1 + RATE_LIMIT_WINDOW → c < 5 →
      checkRateLimit t key (m.set key ⟨c, t1 + RATE_LIMIT_WINDOW⟩) =
        (⟨true, 5 - (c + 1), none⟩,
         m.set key ⟨c + 1, t1 + RATE_LIMIT_WINDOW⟩) := by
    intro t c ht hc
    have hgt : ¬ t > t1 + RATE_LIMIT_WINDOW := by omega
    have hge : ¬ c ≥ RATE_LIMIT_MAX_REQUESTS := by
      simp only [RATE_LIMIT_MAX_REQUESTS]; omega
    simp only [checkRateLimit, hW c, hge, RLMap.set_set,
      RATE_LIMIT_MAX_REQUESTS, if_false, ite_false, if_neg hgt]
    rw [if_neg (by omega : ¬ c ≥ 5)]
  have s6 : checkRateLimit t6 key (m.set key ⟨5, t1 + RATE_LIMIT_WINDOW⟩) =
      (⟨false, 0, some (t1 + RATE_LIMIT_WINDOW)⟩,
       m.set key ⟨5, t1 + RATE_LIMIT_WINDOW⟩) := by
    have hgt : ¬ t6 > t1 + RATE_LIMIT_WINDOW := by omega
    simp [checkRateLimit, hW 5, hgt, RATE_LIMIT_MAX_REQUESTS]
  have s2 := step t2 1 h2 (by omega)
  have s3 := step t3 2 h3 (by omega)
  have s4 := step t4 3 h4 (by omega)
  have s5 := step t5 4 h5 (by omega)
  norm_num at s2 s3 s4 s5
  simp [runChecks, s1, s2, s3, s4, s5, s6]

/-- Witness for C3: six calls at time 0 on an empty map. -/
theorem rateLimit_first_six_calls_witness :
    (runChecks [0, 0, 0, 0, 0, 0] "k" emptyRL).1 =
      [⟨true, 4, none⟩, ⟨true, 3, none⟩, ⟨true, 2, none⟩,
       ⟨true, 1, none⟩, ⟨true, 0, none⟩,
       ⟨false, 0, some (0 + RATE_LIMIT_WINDOW)⟩] :=
  rateLimit_first_six_calls 0 0 0 0 0 0 "k" emptyRL rfl
    (Nat.zero_le _) (Nat.zero_le _) (Nat.zero_le _) (Nat.zero_le _)
    (Nat.zero_le _)

/-- Claim C4: a call made strictly after the resetTime of an existing
record, even a saturated one, behaves exactly like a call from a fresh
identity: allowed with remaining N-1 = 4, and a new record with count 1 and
a re-armed resetTime now+W is stored. -/
theorem rateLimit_reset_after_window (now : Nat) (key : String) (m : RLMap)
    (rec : RateLimitRecord) (hrec : m key = some rec)
    (hnow : now > rec.resetTime) :
    checkRateLimit now key m =
      (⟨true, 4, none⟩, m.set key ⟨1, now + RATE_LIMIT_WINDOW⟩) := by
  simp [checkRateLimit, hrec, hnow, RATE_LIMIT_MAX_REQUESTS]

/-- Witness for C4: a saturated record whose window has elapsed. -/
theorem rateLimit_reset_after_window_witness :
    checkRateLimit 11 "k" (emptyRL.set "k" ⟨5, 10⟩) =
      (⟨true, 4, none⟩,
       (emptyRL.set "k" ⟨5, 10⟩).set "k" ⟨1, 11 + RATE_LIMIT_WINDOW⟩) :=
  rateLimit_reset_after_window 11 "k" (emptyRL.set "k" ⟨5, 10⟩) ⟨5, 10⟩
    (by simp [RLMap.set, emptyRL]) (by decide)

/-- Claim C10: whenever checkRateLimit denies (allowed = false), the map is
returned completely unchanged: the denied record keeps its count and
resetTime and no other entry is created, modified or removed. -/
theorem deny_leaves_map_unchanged (now : Nat) (key : String) (m : RLMap)
    (h : (checkRateLimit now key m).1.allowed = false) :
    (checkRateLimit now key m).2 = m := by
  unfold checkRateLimit at h ⊢
  cases hrec : m key with
  | none => simp [hrec] at h
  | some rec =>
      simp only [hrec] at h ⊢
      by_cases h1 : now > rec.resetTime
      · simp [h1] at h
      · by_cases h2 : rec.count ≥ RATE_LIMIT_MAX_REQUESTS
        · simp [h1, h2]
        · simp [h1, h2] at h

/-- Witness for C10: a denied call on a saturated record inside its window
leaves the map untouched. -/
theorem deny_leaves_map_unchanged_witness :
    (checkRateLimit 5 "k" (emptyRL.set "k" ⟨5, 10⟩)).2 =
      emptyRL.set "k" ⟨5, 10⟩ :=
  deny_leaves_map_unchanged 5 "k" (emptyRL.set "k" ⟨5, 10⟩) (by
    simp [checkRateLimit, RLMap.set, emptyRL, RATE_LIMIT_MAX_REQUESTS])

/-- The sanitize-and-evaluate tail never touches the rate-limit map. -/
theorem proceed_snd (req : Request) (m : RLMap)
    (hdrs : List (String × String)) (acc : Option String) :
    (proceedAfterRateLimit req m hdrs acc).2 = m := by
  cases hs : req.sanitizeResult with
  | error e => simp [proceedAfterRateLimit, hs]
  | ok pr =>
      cases he : req.evalResult <;> simp [proceedAfterRateLimit, hs, he]

/-- The sanitize-and-evaluate tail emits exactly the headers it was
handed. -/
theorem proceed_headers (req : Request) (m : RLMap)
    (hdrs : List (String × String)) (acc : Option String) :
    (proceedAfterRateLimit req m hdrs acc).1.headers = hdrs := by
  cases hs : req.sanitizeResult with
  | error e => simp [proceedAfterRateLimit, hs]
  | ok pr =>
      cases he : req.evalResult <;> simp [proceedAfterRateLimit, hs, he]

/-- The sanitize-and-evaluate tail only produces 400, 502 or 200 and in
particular never 429. -/
theorem proceed_status_ne_429 (req : Request) (m : RLMap)
    (hdrs : List (String × String)) (acc : Option String) :
    (proceedAfterRateLimit req m hdrs acc).1.status ≠ 429 := by
  cases hs : req.sanitizeResult with
  | error e => cases e <;> simp [proceedAfterRateLimit, hs, screeningErrorStatus]
  | ok pr =>
      cases he : req.evalResult with
      | error e =>
          cases e <;> simp [proceedAfterRateLimit, hs, he, screeningErrorStatus]
      | ok raw => simp [proceedAfterRateLimit, hs, he]

/-- The response of the sanitize-and-evaluate tail does not depend on the
rate-limit map. -/
theorem proceed_fst_indep (req : Request) (m m' : RLMap)
    (hdrs : List (String × String)) (acc : Option String) :
    (proceedAfterRateLimit req m hdrs acc).1 =
      (proceedAfterRateLimit req m' hdrs acc).1 := by
  cases hs : req.sanitizeResult with
  | error e => simp [proceedAfterRateLimit, hs]
  | ok pr =>
      cases he : req.evalResult <;> simp [proceedAfterRateLimit, hs, he]

/-- A 200 body out of the sanitize-and-evaluate tail always carries the
normalized form of the raw evaluator response. -/
theorem proceed_body_ok (req : Request) (m : RLMap)
    (hdrs : List (String × String)) (acc : Option String)
    (ev : Evaluation) (a : Option String)
    (h : (proceedAfterRateLimit req m hdrs acc).1.body = RespBody.ok ev a) :
    ∃ raw, req.evalResult = Except.ok raw ∧ ev = normalizeEvaluation raw := by
  cases hs : req.sanitizeResult with
  | error e => simp [proceedAfterRateLimit, hs] at h
  | ok pr =>
      cases he : req.evalResult with
      | error e => simp [proceedAfterRateLimit, hs, he] at h
      | ok raw =>
          simp [proceedAfterRateLimit, hs, he] at h
          exact ⟨raw, rfl, h.1.symm⟩

/-- Claim C5: a request whose credential verification succeeds is never
rate limited: the handler neither reads the rate-limit map (its response is
the same for any two maps) nor writes it (the map comes back unchanged),
and the status is never 429. -/
theorem authenticated_bypasses_rateLimit (req : Request) (m m' : RLMap)
    (h : String) (aid : String) (hah : req.authHeader = some h)
    (hne : h ≠ "") (hok : req.authResult = Except.ok aid) :
    (handler req m).1 = (handler req m').1 ∧ (handler req m).2 = m ∧
    (handler req m).1.status ≠ 429 := by
  by_cases hm : req.method = "POST"
  · have hred : ∀ mm : RLMap, handler req mm =
        proceedAfterRateLimit req mm [] (some aid) := by
      intro mm
      simp [handler, hm, hah, hne, hok]
    rw [hred m, hred m']
    exact ⟨proceed_fst_indep req m m' [] (some aid),
      proceed_snd req m [] (some aid),
      proceed_status_ne_429 req m [] (some aid)⟩
  · have hred : ∀ mm : RLMap, handler req mm =
        (⟨405, [], .errorJson "Method not allowed"⟩, mm) := by
      intro mm
      simp [handler, hm]
    rw [hred m, hred m']
    refine ⟨rfl, rfl, by simp⟩

/-- Witness for C5: an authenticated sample request against two different
maps. -/
theorem authenticated_bypasses_rateLimit_witness :
    (handler sampleAuthReq emptyRL).1 =
      (handler sampleAuthReq (emptyRL.set "x" ⟨3, 100⟩)).1 ∧
    (handler sampleAuthReq emptyRL).2 = emptyRL ∧
    (handler sampleAuthReq emptyRL).1.status ≠ 429 :=
  authenticated_bypasses_rateLimit sampleAuthReq emptyRL
    (emptyRL.set "x" ⟨3, 100⟩) "Bearer x" "alice.near" rfl (by decide) rfl

/-- Claim C6: when credential verification throws, the handler behaves
exactly as it would on the same request without any credential: it degrades
to the anonymous path (rate limit included) and surfaces no authentication
error. -/
theorem auth_failure_degrades_to_anonymous (req : Request) (m : RLMap)
    (h : String) (hah : req.authHeader = some h)
    (herr : req.authResult = Except.error ()) :
    handler req m = handler { req with authHeader := none } m := by
  obtain ⟨me, ah, xf, xr, sa, ar, sr, er, nw⟩ := req
  simp only at hah herr
  subst hah herr
  by_cases hh : h = ""
  · subst hh
    rfl
  · simp only [handler, hh, if_false, ite_false]
    rfl

/-- Witness for C6: a request with a rejected credential equals its
anonymous twin. -/
theorem auth_failure_degrades_to_anonymous_witness :
    handler { sampleAnonReq with authHeader := some "Bearer bad" } emptyRL =
      handler { { sampleAnonReq with authHeader := some "Bearer bad" }
                  with authHeader := none } emptyRL :=
  auth_failure_degrades_to_anonymous
    { sampleAnonReq with authHeader := some "Bearer bad" } emptyRL
    "Bearer bad" rfl rfl

/-- Claim C8: every unauthenticated POST request gets the
X-RateLimit-Remaining and X-RateLimit-Limit headers on its response,
whether the rate limiter allows or denies it. -/
theorem unauthenticated_rateLimit_headers (req : Request) (m : RLMap)
    (hm : req.method = "POST") (hanon : anonymousReq req) :
    ("X-RateLimit-Remaining",
        toString
          (checkRateLimit req.now (getClientIdentifier req) m).1.remaining)
      ∈ (handler req m).1.headers ∧
    ("X-RateLimit-Limit", "5") ∈ (handler req m).1.headers := by
  have h5 : toString RATE_LIMIT_MAX_REQUESTS = "5" := rfl
  have hred : handler req m =
      (let checked := checkRateLimit req.now (getClientIdentifier req) m
       let hdrs :=
        [("X-RateLimit-Remaining", toString checked.1.remaining),
         ("X-RateLimit-Limit", toString RATE_LIMIT_MAX_REQUESTS)]
       if checked.1.allowed then
         proceedAfterRateLimit req checked.2 hdrs none
       else
         let retryAfter :=
           match checked.1.resetTime with
           | some rt =>
               if rt = 0 then RATE_LIMIT_WINDOW / 1000
               else (rt - req.now + 999) / 1000
           | none => RATE_LIMIT_WINDOW / 1000
         (⟨429, hdrs ++ [("Retry-After", toString retryAfter)],
           .rateLimited "Rate limit exceeded" (rateLimitMessage retryAfter)
             retryAfter⟩, checked.2)) := by
    rcases hanon with hh | hh | hh
    · simp [handler, hm, hh]
    · simp [handler, hm, hh]
    · by_cases hah : req.authHeader = none
      · simp [handler, hm, hah]
      · obtain ⟨hv, hhv⟩ := Option.ne_none_iff_exists.mp hah
        by_cases hhe : hv = "" <;> simp [handler, hm, ← hhv, hhe, hh]
  rw [hred]
  by_cases hal :
      (checkRateLimit req.now (getClientIdentifier req) m).1.allowed
  · simp only [hal, if_true, ite_true]
    rw [proceed_headers]
    simp [h5]
  · simp only [hal, if_false, ite_false, Bool.false_eq_true]
    simp [h5]

/-- Witness for C8: the anonymous sample request receives both headers. -/
theorem unauthenticated_rateLimit_headers_witness :
    ("X-RateLimit-Remaining",
        toString (checkRateLimit sampleAnonReq.now
          (getClientIdentifier sampleAnonReq) emptyRL).1.remaining)
      ∈ (handler sampleAnonReq emptyRL).1.headers ∧
    ("X-RateLimit-Limit", "5")
      ∈ (handler sampleAnonReq emptyRL).1.headers :=
  unauthenticated_rateLimit_headers sampleAnonReq emptyRL rfl (Or.inl rfl)

/-- Claim C9: the rate-limiter key is derived exactly as the claim states:
first string-typed x-forwarded-for entry (first comma field, trimmed), else
string-typed x-real-ip, else the socket address, else "unknown".  The
hypothesis excludes the empty-string socket address, which the code (via
the JavaScript `||` fallback) also maps to "unknown"; a real
`remoteAddress` is never the empty string. -/
theorem clientIdentifier_matches_spec (req : Request)
    (h : req.socketAddr ≠ some "") :
    getClientIdentifier req = clientIdentitySpec req := by
  obtain ⟨me, ah, xf, xr, sa, ar, sr, er, nw⟩ := req
  simp only at h
  cases xf with
  | some xv =>
      cases xv with
      | str s => rfl
      | strs l =>
          cases xr with
          | some xv2 =>
              cases xv2 with
              | str s => rfl
              | strs l2 =>
                  cases sa with
                  | none => rfl
                  | some a =>
                      have ha : a ≠ "" := fun hh => h (by rw [hh])
                      simp [getClientIdentifier, clientIdentitySpec, ha]
          | none =>
              cases sa with
              | none => rfl
              | some a =>
                  have ha : a ≠ "" := fun hh => h (by rw [hh])
                  simp [getClientIdentifier, clientIdentitySpec, ha]
  | none =>
      cases xr with
      | some xv2 =>
          cases xv2 with
          | str s => rfl
          | strs l2 =>
              cases sa with
              | none => rfl
              | some a =>
                  have ha : a ≠ "" := fun hh => h (by rw [hh])
                  simp [getClientIdentifier, clientIdentitySpec, ha]
      | none =>
          cases sa with
          | none => rfl
          | some a =>
              have ha : a ≠ "" := fun hh => h (by rw [hh])
              simp [getClientIdentifier, clientIdentitySpec, ha]

/-- Witness for C9: the sample request falls through to its socket
address. -/
theorem clientIdentifier_matches_spec_witness :
    getClientIdentifier sampleAnonReq = clientIdentitySpec sampleAnonReq :=
  clientIdentifier_matches_spec sampleAnonReq (by decide)

/-- Integer division `(d + 999) / 1000`, which is how the handler is
embedded, computes the rational ceiling of d / 1000, which is what
`Math.ceil((resetTime - Date.now()) / 1000)` computes on these
magnitudes. -/
theorem natAddDivCeil (d : Nat) :
    (((d + 999) / 1000 : Nat) : ℤ) = ⌈(d : ℚ) / 1000⌉ := by
  set q := (d + 999) / 1000 with hq
  have hb1 : 1000 * q ≤ d + 999 := by omega
  have hb3 : d ≤ 1000 * q := by omega
  symm
  rw [Int.ceil_eq_iff]
  refine ⟨?_, ?_⟩
  · rw [lt_div_iff₀ (by norm_num : (0 : ℚ) < 1000)]
    have hc : ((1000 * q : ℕ) : ℚ) ≤ (d : ℚ) + 999 := by exact_mod_cast hb1
    push_cast at hc ⊢
    linarith
  · rw [div_le_iff₀ (by norm_num : (0 : ℚ) < 1000)]
    have hc : ((d : ℕ) : ℚ) ≤ ((1000 * q : ℕ) : ℚ) := by exact_mod_cast hb3
    push_cast at hc ⊢
    linarith

/-- Claim C7: every denied anonymous POST request gets HTTP 429 with a JSON
body holding error, message and retryAfter fields, where retryAfter is the
integer ceiling of (resetTime - now) / 1000 seconds, is at most 900, and is
repeated in the Retry-After header.  The last two hypotheses record that
the record was produced by the system (armed resetTimes are positive and at
most one window ahead of the clock). -/
theorem denied_request_429_retryAfter (req : Request) (m : RLMap)
    (rec : RateLimitRecord) (hm : req.method = "POST")
    (hanon : anonymousReq req)
    (hrec : m (getClientIdentifier req) = some rec)
    (hcount : rec.count ≥ 5) (hnow : req.now ≤ rec.resetTime)
    (hpos : 0 < rec.resetTime)
    (hub : rec.resetTime ≤ req.now + RATE_LIMIT_WINDOW) :
    (handler req m).1.status = 429 ∧
    (handler req m).1.body =
      RespBody.rateLimited "Rate limit exceeded"
        (rateLimitMessage ((rec.resetTime - req.now + 999) / 1000))
        ((rec.resetTime - req.now + 999) / 1000) ∧
    ("Retry-After", toString ((rec.resetTime - req.now + 999) / 1000))
      ∈ (handler req m).1.headers ∧
    (rec.resetTime - req.now + 999) / 1000 ≤ 900 ∧
    (((rec.resetTime - req.now + 999) / 1000 : Nat) : ℤ) =
      ⌈(((rec.resetTime : ℕ) : ℚ) - ((req.now : ℕ) : ℚ)) / 1000⌉ := by
  have hchk : checkRateLimit req.now (getClientIdentifier req) m =
      (⟨false, 0, some rec.resetTime⟩, m) := by
    have h1 : ¬ req.now > rec.resetTime := by omega
    have h2 : rec.count ≥ RATE_LIMIT_MAX_REQUESTS := by
      simpa [RATE_LIMIT_MAX_REQUESTS] using hcount
    simp [checkRateLimit, hrec, h1, h2]
  have hrz : rec.resetTime ≠ 0 := by omega
  have hred : handler req m =
      (⟨429,
        [("X-RateLimit-Remaining", toString (0 : Nat)),
         ("X-RateLimit-Limit", toString RATE_LIMIT_MAX_REQUESTS),
         ("Retry-After",
           toString ((rec.resetTime - req.now + 999) / 1000))],
        .rateLimited "Rate limit exceeded"
          (rateLimitMessage ((rec.resetTime - req.now + 999) / 1000))
          ((rec.resetTime - req.now + 999) / 1000)⟩, m) := by
    rcases hanon with hh | hh | hh
    · simp [handler, hm, hh, hchk, hrz]
    · simp [handler, hm, hh, hchk, hrz]
    · by_cases hah : req.authHeader = none
      · simp [handler, hm, hah, hchk, hrz]
      · obtain ⟨hv, hhv⟩ := Option.ne_none_iff_exists.mp hah
        by_cases hhe : hv = "" <;>
          simp [handler, hm, ← hhv, hhe, hh, hchk, hrz]
  have hub9 : rec.resetTime ≤ req.now + 900000 := by
    simpa [RATE_LIMIT_WINDOW] using hub
  refine ⟨by rw [hred], by rw [hred], by rw [hred]; simp, by omega, ?_⟩
  rw [natAddDivCeil (rec.resetTime - req.now), Nat.cast_sub hnow]

/-- Witness for C7: the anonymous sample request against a saturated record
whose window ends 900 seconds later. -/
theorem denied_request_429_retryAfter_witness :
    (handler sampleAnonReq (emptyRL.set "1.2.3.4" ⟨5, 900000⟩)).1.status
        = 429 ∧
    (handler sampleAnonReq (emptyRL.set "1.2.3.4" ⟨5, 900000⟩)).1.body =
      RespBody.rateLimited "Rate limit exceeded"
        (rateLimitMessage ((900000 - sampleAnonReq.now + 999) / 1000))
        ((900000 - sampleAnonReq.now + 999) / 1000) ∧
    ("Retry-After",
        toString ((900000 - sampleAnonReq.now + 999) / 1000))
      ∈ (handler sampleAnonReq
          (emptyRL.set "1.2.3.4" ⟨5, 900000⟩)).1.headers ∧
    (900000 - sampleAnonReq.now + 999) / 1000 ≤ 900 ∧
    (((900000 - sampleAnonReq.now + 999) / 1000 : Nat) : ℤ) =
      ⌈(((900000 : ℕ) : ℚ) - ((sampleAnonReq.now : ℕ) : ℚ)) / 1000⌉ :=
  denied_request_429_retryAfter sampleAnonReq
    (emptyRL.set "1.2.3.4" ⟨5, 900000⟩) ⟨5, 900000⟩ rfl (Or.inl rfl)
    (by decide) (by decide) (by decide) (by decide) (by decide)

/-- A 200 body out of the whole handler always carries the normalized form
of the raw evaluator response. -/
theorem handler_body_ok (req : Request) (m : RLMap) (ev : Evaluation)
    (a : Option String)
    (h : (handler req m).1.body = RespBody.ok ev a) :
    ∃ raw, req.evalResult = Except.ok raw ∧ ev = normalizeEvaluation raw := by
  by_cases hm : req.method = "POST"
  case neg =>
    simp [handler, hm] at h
  case pos =>
    have anonCase : ∀ m' : RLMap,
        ((if (checkRateLimit req.now (getClientIdentifier req) m').1.allowed
            then
              proceedAfterRateLimit req
                (checkRateLimit req.now (getClientIdentifier req) m').2
                [("X-RateLimit-Remaining",
                    toString (checkRateLimit req.now
                      (getClientIdentifier req) m').1.remaining),
                 ("X-RateLimit-Limit", toString RATE_LIMIT_MAX_REQUESTS)]
                none
            else
              (⟨429,
                [("X-RateLimit-Remaining",
                    toString (checkRateLimit req.now
                      (getClientIdentifier req) m').1.remaining),
                 ("X-RateLimit-Limit", toString RATE_LIMIT_MAX_REQUESTS)] ++
                 [("Retry-After",
                    toString
                      (match (checkRateLimit req.now
                          (getClientIdentifier req) m').1.resetTime with
                       | some rt =>
                           if rt = 0 then RATE_LIMIT_WINDOW / 1000
                           else (rt - req.now + 999) / 1000
                       | none => RATE_LIMIT_WINDOW / 1000))],
                .rateLimited "Rate limit exceeded"
                  (rateLimitMessage
                    (match (checkRateLimit req.now
                        (getClientIdentifier req) m').1.resetTime with
                     | some rt =>
                         if rt = 0 then RATE_LIMIT_WINDOW / 1000
                         else (rt - req.now + 999) / 1000
                     | none => RATE_LIMIT_WINDOW / 1000))
                  (match (checkRateLimit req.now
                      (getClientIdentifier req) m').1.resetTime with
                   | some rt =>
                       if rt = 0 then RATE_LIMIT_WINDOW / 1000
                       else (rt - req.now + 999) / 1000
                   | none => RATE_LIMIT_WINDOW / 1000)⟩,
               (checkRateLimit req.now
                 (getClientIdentifier req) m').2)).1.body
          = RespBody.ok ev a) →
        ∃ raw, req.evalResult = Except.ok raw ∧
          ev = normalizeEvaluation raw := by
      intro m' h'
      by_cases hal :
          (checkRateLimit req.now (getClientIdentifier req) m').1.allowed
      · rw [if_pos hal] at h'
        exact proceed_body_ok req _ _ none ev a h'
      · rw [if_neg hal] at h'
        simp at h'
    cases hah : req.authHeader with
    | none =>
        refine anonCase m ?_
        have := h
        simp only [handler, hm, hah] at this
        simpa using this
    | some hv =>
        by_cases hhe : hv = ""
        · refine anonCase m ?_
          have := h
          simp only [handler, hm, hah, hhe] at this
          simpa using this
        · cases har : req.authResult with
          | ok aid =>
              have := h
              simp only [handler, hm, hah, hhe, har] at this
              exact proceed_body_ok req m [] (some aid) ev a (by simpa using this)
          | error u =>
              refine anonCase m ?_
              have := h
              simp only [handler, hm, hah, hhe, har] at this
              simpa using this

/-- Claim C1: every Evaluation the handler returns to the caller has its
aggregates recomputed from the six boolean quality criteria: qualityScore
is their mean (pass=1, fail=0) and overallPass their conjunction,
independent of the aggregate values the upstream service reported. -/
theorem evaluation_aggregates_recomputed (req : Request) (m : RLMap)
    (ev : Evaluation) (a : Option String)
    (h : (handler req m).1.body = RespBody.ok ev a) :
    ev.qualityScore =
      (b2q ev.complete.pass + b2q ev.legible.pass + b2q ev.consistent.pass +
       b2q ev.compliant.pass + b2q ev.justified.pass +
       b2q ev.measurable.pass) / 6 ∧
    ev.overallPass =
      (ev.complete.pass && ev.legible.pass && ev.consistent.pass &&
       ev.compliant.pass && ev.justified.pass && ev.measurable.pass) := by
  obtain ⟨raw, _, hev⟩ := handler_body_ok req m ev a h
  subst hev
  exact ⟨rfl, rfl⟩

/-- Witness for C1: the sample raw response self-reports qualityScore 7 and
overallPass true with a failing criterion; the returned Evaluation has the
recomputed aggregates. -/
theorem evaluation_aggregates_recomputed_witness :
    (normalizeEvaluation sampleRaw).qualityScore =
      (b2q (normalizeEvaluation sampleRaw).complete.pass +
       b2q (normalizeEvaluation sampleRaw).legible.pass +
       b2q (normalizeEvaluation sampleRaw).consistent.pass +
       b2q (normalizeEvaluation sampleRaw).compliant.pass +
       b2q (normalizeEvaluation sampleRaw).justified.pass +
       b2q (normalizeEvaluation sampleRaw).measurable.pass) / 6 ∧
    (normalizeEvaluation sampleRaw).overallPass =
      ((normalizeEvaluation sampleRaw).complete.pass &&
       (normalizeEvaluation sampleRaw).legible.pass &&
       (normalizeEvaluation sampleRaw).consistent.pass &&
       (normalizeEvaluation sampleRaw).compliant.pass &&
       (normalizeEvaluation sampleRaw).justified.pass &&
       (normalizeEvaluation sampleRaw).measurable.pass) :=
  evaluation_aggregates_recomputed sampleAnonReq emptyRL
    (normalizeEvaluation sampleRaw) none rfl
